import Mathlib

/-!
# spy.ko: input-event tap with a logging toggle

A shallow embedding of `src/spy.c`.  The module's globals and the parts of the
kernel it talks to are one explicit `State`; every C function becomes a Lean
function threading that state.  The kernel services the module calls
(`kmalloc`, `input_register_handle`, `input_open_device`, ...) live outside the
repository: they are modelled by their effect on three sets of handle addresses
(allocated, registered, opened), and each one that can fail takes its result
from an `Outcome` supplied by the caller, so every success/failure combination
can be stated.
-/

namespace Spy

/-! ## Data model -/

/-- The two printk levels the module uses (`pr_info`, `pr_err`). -/
inductive Level where
  | info
  | err
deriving DecidableEq, Repr

/-- One variadic argument of a printk call: `%u`, `%d` or `%s`. -/
inductive Arg where
  | u (n : Nat)
  | d (i : Int)
  | s (str : String)
deriving DecidableEq, Repr

/-- One printk call: level, format string, arguments. -/
structure Record where
  level : Level
  fmt : String
  args : List Arg
deriving DecidableEq, Repr

/-- The fields of `struct input_dev` the module reads.  `addr` stands for the
address of the struct, the identity of the device. -/
structure input_dev where
  addr : Nat
  name : String
  phys : String
deriving DecidableEq, Repr

/-- An entry of a match table (`struct input_device_id`); only `driver_info`
is ever set by the module. -/
structure input_device_id where
  driver_info : Nat
deriving DecidableEq, Repr

/-- The data fields of `struct input_handler` (the three callbacks are the
functions defined below). -/
structure input_handler where
  name : String
  id_table : List input_device_id
deriving DecidableEq, Repr

/-- The fields of `struct input_handle` written by `spy_connect_callback`.
`priv` is the C field `private`; `none` is `NULL`. -/
structure input_handle where
  dev : input_dev
  handler : input_handler
  name : String
  priv : Option Nat
deriving DecidableEq, Repr

/-- A call made to the handle-lifecycle services of the kernel, with the
handle address it was made on and, for the fallible ones, what it returned. -/
inductive Call where
  | kmalloc (ret : Nat)
  | input_register_handle (handle : Nat) (ret : Int)
  | input_open_device (handle : Nat) (ret : Int)
  | input_close_device (handle : Nat)
  | input_unregister_handle (handle : Nat)
  | kfree (handle : Nat)
deriving DecidableEq, Repr

/-- The module's globals together with the kernel state it acts on.
* `log_enabled`: the C global `int log_enabled`;
* `dev`: the C global `dev_t dev`;
* `allocated`, `registered`, `opened`: addresses of the handles currently
  allocated / registered with the input core / opened;
* `mem`: contents of the allocated handles;
* `calls`: the handle-lifecycle calls made so far, oldest first;
* `log`: the printk records emitted so far, oldest first;
* `chrdev_region` ... `handler_registered`: which startup resources are held. -/
structure State where
  log_enabled : Int
  dev : Nat
  allocated : List Nat
  registered : List Nat
  opened : List Nat
  mem : List (Nat × input_handle)
  calls : List Call
  log : List Record
  chrdev_region : Bool
  cdev_added : Bool
  dev_class : Bool
  device_node : Bool
  handler_registered : Bool
deriving DecidableEq, Repr

/-- State at module load: `dev = 0`, `log_enabled = 0`, nothing held. -/
def init : State :=
  { log_enabled := 0, dev := 0, allocated := [], registered := [], opened := [],
    mem := [], calls := [], log := [],
    chrdev_region := false, cdev_added := false, dev_class := false,
    device_node := false, handler_registered := false }

/-- Results of the fallible kernel calls of one `spy_connect_callback`:
`kmalloc` is the address that call returns (`0` is `NULL`), the other two
fields are the statuses returned by `input_register_handle` and
`input_open_device` (`0` is success). -/
structure Outcome where
  kmalloc : Nat
  input_register_handle : Int
  input_open_device : Int
deriving DecidableEq, Repr

/-! ## Constants -/

/-- Constant `ENOMEM` of `<linux/errno.h>`. -/
def ENOMEM : Int := 12

/-- Source `#define SPY_TOGGLE_LOGGING _IO(0x44, 0)`: with the generic ioctl encoding
the direction and size fields are zero, the type sits at bit 8 and the number
at bit 0. -/
def SPY_TOGGLE_LOGGING : Nat := (0x44 <<< 8) ||| 0

/-- Source `spy_input_id_table`: one entry matching every device, then the
terminating zero entry. -/
def spy_input_id_table : List input_device_id :=
  [{ driver_info := 1 }, { driver_info := 0 }]

/-- Source `spy_handler`, the handler descriptor given to the input core. -/
def spy_handler : input_handler :=
  { name := "spy_input_handler", id_table := spy_input_id_table }

/-! ## Kernel services -/

/-- Kernel `pr_info(fmt, args...)`. -/
def pr_info (s : State) (fmt : String) (args : List Arg) : State :=
  { s with log := s.log ++ [{ level := Level.info, fmt := fmt, args := args }] }

/-- Kernel `pr_err(fmt, args...)`. -/
def pr_err (s : State) (fmt : String) (args : List Arg) : State :=
  { s with log := s.log ++ [{ level := Level.err, fmt := fmt, args := args }] }

/-- Kernel `kmalloc` returning `p`: a non-null result becomes an allocated address. -/
def kmalloc (s : State) (p : Nat) : State :=
  { s with
    allocated := if p = 0 then s.allocated else p :: s.allocated
    calls := s.calls ++ [Call.kmalloc p] }

/-- The four field assignments `handle->dev = ...; ... handle->private = NULL`. -/
def store (s : State) (p : Nat) (h : input_handle) : State :=
  { s with mem := (p, h) :: s.mem }

/-- Kernel `kfree(p)`: the address is no longer allocated and its contents are gone. -/
def kfree (s : State) (p : Nat) : State :=
  { s with
    allocated := s.allocated.filter (fun q => q ≠ p)
    mem := s.mem.filter (fun e => e.1 ≠ p)
    calls := s.calls ++ [Call.kfree p] }

/-- Kernel `input_register_handle(p)` returning `ret`: the handle is registered
exactly when the call reports success. -/
def input_register_handle (s : State) (p : Nat) (ret : Int) : Int × State :=
  (ret, { s with
    registered := if ret = 0 then p :: s.registered else s.registered
    calls := s.calls ++ [Call.input_register_handle p ret] })

/-- Kernel `input_unregister_handle(p)`: the handle is no longer registered. -/
def input_unregister_handle (s : State) (p : Nat) : State :=
  { s with
    registered := s.registered.filter (fun q => q ≠ p)
    calls := s.calls ++ [Call.input_unregister_handle p] }

/-- Kernel `input_open_device(p)` returning `ret`: the handle is opened exactly when
the call reports success. -/
def input_open_device (s : State) (p : Nat) (ret : Int) : Int × State :=
  (ret, { s with
    opened := if ret = 0 then p :: s.opened else s.opened
    calls := s.calls ++ [Call.input_open_device p ret] })

/-- Kernel `input_close_device(p)`: the handle is no longer opened. -/
def input_close_device (s : State) (p : Nat) : State :=
  { s with
    opened := s.opened.filter (fun q => q ≠ p)
    calls := s.calls ++ [Call.input_close_device p] }

/-- Reading through a handle pointer: `none` when the address holds no live
handle. -/
def deref (s : State) (p : Nat) : Option input_handle :=
  s.mem.lookup p

/-! ## The module's functions -/

/-- Format string of the record emitted by `spy_event_callback`. -/
def event_fmt : String :=
  "spy: event: type=%u, code=%u, value=%d, dev=%s, phys=%s\n"

/-- Source `spy_event_callback(handle, type, code, value)`.  The handle is read only
when logging is enabled; `none` is a read through a dead pointer. -/
def spy_event_callback (s : State) (handle : Nat) (type code : Nat) (value : Int) :
    Option State :=
  if s.log_enabled ≠ 0 then
    match deref s handle with
    | some h =>
      some (pr_info s event_fmt
        [Arg.u type, Arg.u code, Arg.d value, Arg.s h.dev.name, Arg.s h.dev.phys])
    | none => none
  else
    some s

/-- Source `spy_connect_callback(handler, dev, id)`; `o` gives the results of the
three fallible kernel calls.  Returns the C return value and the new state. -/
def spy_connect_callback (s : State) (handler : input_handler) (dev : input_dev)
    (id : input_device_id) (o : Outcome) : Int × State :=
  let _ := id
  let handle := o.kmalloc
  let s := kmalloc s handle
  if handle = 0 then
    (-ENOMEM, s)
  else
    let s := store s handle
      { dev := dev, handler := handler, name := "spy_handle", priv := none }
    let (status, s) := input_register_handle s handle o.input_register_handle
    if status ≠ 0 then
      -- err_free_handle
      let s := kfree s handle
      let s := pr_err s "spy: failed to handle connect callback for device %s\n"
        [Arg.s dev.name]
      (status, s)
    else
      let (status, s) := input_open_device s handle o.input_open_device
      if status ≠ 0 then
        -- err_unregister_handle, falling through to err_free_handle
        let s := input_unregister_handle s handle
        let s := kfree s handle
        let s := pr_err s "spy: failed to handle connect callback for device %s\n"
          [Arg.s dev.name]
        (status, s)
      else
        let s := pr_info s "spy: connect_callback: dev=%s, phys=%s\n"
          [Arg.s dev.name, Arg.s dev.phys]
        (0, s)

/-- Source `spy_disconnect_callback(handle)`; `none` is a read through a dead
pointer. -/
def spy_disconnect_callback (s : State) (handle : Nat) : Option State :=
  match deref s handle with
  | some h =>
    let s := pr_info s "spy: disconnect_callback: dev=%s, phys=%s\n"
      [Arg.s h.dev.name, Arg.s h.dev.phys]
    let s := input_close_device s handle
    let s := input_unregister_handle s handle
    let s := kfree s handle
    some s
  | none => none

/-- C logical negation on `int`. -/
def lnot (x : Int) : Int := if x = 0 then 1 else 0

/-- Source `spy_ioctl(file, cmd, arg)`: the `switch` on `cmd`; both branches
return `0`. -/
def spy_ioctl (s : State) (file : Nat) (cmd : Nat) (arg : Nat) : Int × State :=
  let _ := file
  let _ := arg
  if cmd = SPY_TOGGLE_LOGGING then
    let s := { s with log_enabled := lnot s.log_enabled }
    let s := pr_info s "spy: toggle_logging: enabled=%d\n" [Arg.d s.log_enabled]
    (0, s)
  else
    let s := pr_info s "spy: ioctl: unknown\n" []
    (0, s)

/-- Results of the fallible kernel calls of `spy_init`.  The two `int`
results are `0` on success and a negative errno on failure; `dev` is the
device number `alloc_chrdev_region` stores on success; for the two
pointer-returning calls `true` is a valid pointer and `false` an `ERR_PTR`. -/
structure InitOutcome where
  alloc_chrdev_region : Int
  dev : Nat
  cdev_add : Int
  class_create : Bool
  device_create : Bool
  input_register_handler : Int
deriving DecidableEq, Repr

/-- Kernel `alloc_chrdev_region(&dev, 0, 1, "spy")` returning `ret`. -/
def alloc_chrdev_region (s : State) (ret : Int) (devno : Nat) : Int × State :=
  (ret, if ret = 0 then { s with chrdev_region := true, dev := devno } else s)

/-- Kernel `unregister_chrdev_region(dev, 1)`. -/
def unregister_chrdev_region (s : State) : State :=
  { s with chrdev_region := false }

/-- Kernel `cdev_add(&n1_cdev, dev, 1)` returning `ret`. -/
def cdev_add (s : State) (ret : Int) : Int × State :=
  (ret, if ret = 0 then { s with cdev_added := true } else s)

/-- Kernel `class_create(THIS_MODULE, "spy")`; the Boolean is `!IS_ERR(result)`. -/
def class_create (s : State) (ok : Bool) : Bool × State :=
  (ok, if ok then { s with dev_class := true } else s)

/-- Kernel `class_destroy(dev_class)`. -/
def class_destroy (s : State) : State :=
  { s with dev_class := false }

/-- Kernel `device_create(dev_class, NULL, dev, NULL, "spy")`; the Boolean is
`!IS_ERR(result)`. -/
def device_create (s : State) (ok : Bool) : Bool × State :=
  (ok, if ok then { s with device_node := true } else s)

/-- Kernel `device_destroy(dev_class, dev)`. -/
def device_destroy (s : State) : State :=
  { s with device_node := false }

/-- Kernel `input_register_handler(&spy_handler)` returning `ret`. -/
def input_register_handler (s : State) (ret : Int) : Int × State :=
  (ret, if ret = 0 then { s with handler_registered := true } else s)

/-- Kernel `input_unregister_handler(&spy_handler)`: the input core disconnects every
handle still registered, then drops the handler. -/
def input_unregister_handler (s : State) : Option State :=
  (s.registered.foldlM spy_disconnect_callback s).map
    (fun s => { s with handler_registered := false })

/-- Kernel `MAJOR(dev)`: the bits of a device number above the low 20. -/
def MAJOR (dev : Nat) : Nat := dev >>> 20

/-- Kernel `MINOR(dev)`: the low 20 bits of a device number. -/
def MINOR (dev : Nat) : Nat := dev &&& 0xfffff

/-- Source `spy_init()`; `o` gives the results of the fallible kernel calls.
`cdev_init` only fills in the `cdev` structure and holds no resource. -/
def spy_init (s : State) (o : InitOutcome) : Int × State :=
  let (r, s) := alloc_chrdev_region s o.alloc_chrdev_region o.dev
  if r < 0 then
    let s := pr_err s "spy: failed to allocate major number\n" []
    (-1, s)
  else
    let (r, s) := cdev_add s o.cdev_add
    if r < 0 then
      let s := pr_err s "spy: failed to add the device to the system\n" []
      -- class_fail
      let s := unregister_chrdev_region s
      (-1, s)
    else
      let (ok, s) := class_create s o.class_create
      if !ok then
        let s := pr_err s "spy: failed to create struct class for device\n" []
        -- class_fail
        let s := unregister_chrdev_region s
        (-1, s)
      else
        let (ok, s) := device_create s o.device_create
        if !ok then
          let s := pr_err s "spy: failed to create the device\n" []
          -- device_fail, falling through to class_fail
          let s := device_destroy s
          let s := unregister_chrdev_region s
          (-1, s)
        else
          let (r, s) := input_register_handler s o.input_register_handler
          if r ≠ 0 then
            let s := pr_err s "spy: failed to register input handler\n" []
            -- device_fail, falling through to class_fail
            let s := device_destroy s
            let s := unregister_chrdev_region s
            (-1, s)
          else
            let s := pr_info s "spy: loaded: major=%d, minor=%d\n"
              [Arg.d (MAJOR s.dev), Arg.d (MINOR s.dev)]
            (0, s)

/-- Source `spy_exit()`; `none` when a disconnect it triggers reads through a
dead pointer. -/
def spy_exit (s : State) : Option State :=
  match input_unregister_handler s with
  | some s =>
    let s := device_destroy s
    let s := class_destroy s
    let s := unregister_chrdev_region s
    some (pr_info s "spy: unloaded\n" [])
  | none => none

/-! ## Sequences of calls -/

/-- A run of control commands `(cmd, arg)` on the administrative node: the
values returned, in order, and the final state. -/
def ioctl_calls (file : Nat) : State → List (Nat × Nat) → List Int × State
  | s, [] => ([], s)
  | s, (cmd, arg) :: rest =>
    let (r, s1) := spy_ioctl s file cmd arg
    let (rs, s2) := ioctl_calls file s1 rest
    (r :: rs, s2)

/-- Delivery of a run of events `(type, code, value)` through one handle. -/
def deliver (handle : Nat) : State → List (Nat × Nat × Int) → Option State
  | s, [] => some s
  | s, (type, code, value) :: rest =>
    match spy_event_callback s handle type code value with
    | some s1 => deliver handle s1 rest
    | none => none

/-- What the input core tells the module about a device. -/
inductive Notification where
  | attach (dev : input_dev) (o : Outcome)
  | detach (dev : input_dev)
deriving DecidableEq, Repr

/-- The handles the input core has on a device's handle list: the registered
handles bound to that device. -/
def handles_of (s : State) (d : input_dev) : List Nat :=
  s.registered.filter (fun p =>
    match deref s p with
    | some h => decide (h.dev = d)
    | none => false)

/-- One notification: an attach calls `spy_connect_callback` (its return value
is dropped by the input core, which has no caller to report to); a detach calls
`spy_disconnect_callback` on every handle the core has on the device. -/
def notify (s : State) : Notification → Option State
  | Notification.attach d o =>
    some (spy_connect_callback s spy_handler d { driver_info := 1 } o).2
  | Notification.detach d => (handles_of s d).foldlM spy_disconnect_callback s

/-- A sequence of notifications, in order. -/
def run : State → List Notification → Option State
  | s, [] => some s
  | s, n :: rest =>
    match notify s n with
    | some s1 => run s1 rest
    | none => none

/-- An attach succeeded: allocation, registration and open all did. -/
def Outcome.succeeded (o : Outcome) : Bool :=
  decide (o.kmalloc ≠ 0) && decide (o.input_register_handle = 0) &&
    decide (o.input_open_device = 0)

/-- The devices currently attached, as the specification counts them: a
device enters on a successful attach and leaves on its detach. -/
def track (att : List input_dev) : Notification → List input_dev
  | Notification.attach d o => if o.succeeded then d :: att else att
  | Notification.detach d => att.filter (fun e => e ≠ d)

/-- The devices attached after a whole sequence, starting from none. -/
def attached_after (tr : List Notification) : List input_dev :=
  tr.foldl track []

/-- What the platform guarantees about one notification in state `s` with
`att` the devices attached so far: `kmalloc` returns `NULL` or an address not
in use, a device is attached only while it is not attached already, and a
device is detached only while it is attached. -/
def allowed (s : State) (att : List input_dev) : Notification → Bool
  | Notification.attach d o =>
    (decide (o.kmalloc = 0) || decide (o.kmalloc ∉ s.allocated)) && decide (d ∉ att)
  | Notification.detach d => decide (d ∈ att)

/-- A sequence respects the platform ordering from state `s` with `att`
attached: every notification is allowed at the point where it arrives. -/
def respects : State → List input_dev → List Notification → Bool
  | _, _, [] => true
  | s, att, n :: rest =>
    allowed s att n &&
      match notify s n with
      | some s1 => respects s1 (track att n) rest
      | none => true

/-- The devices of the handles at the given addresses. -/
def devices_of (s : State) (ps : List Nat) : List input_dev :=
  ps.filterMap (fun p => (deref s p).map (fun h => h.dev))

/-- A record carries the module's fixed `spy:` tag. -/
def spy_tagged (r : Record) : Bool :=
  "spy:".toList.isPrefixOf r.fmt.toList

/-- A device used in the concrete scenarios. -/
def kbd0 : input_dev := { addr := 1, name := "kbd0", phys := "usb-0000:00:14.0-1/input0" }

/-! ## Vocabulary of the statements -/

/-- The handle `spy_connect_callback` builds for a device. -/
def new_handle (handler : input_handler) (dev : input_dev) : input_handle :=
  { dev := dev, handler := handler, name := "spy_handle", priv := none }

/-- The error record shared by the two rollback paths of
`spy_connect_callback`. -/
def connect_failed (dev : input_dev) : Record :=
  { level := Level.err, fmt := "spy: failed to handle connect callback for device %s\n",
    args := [Arg.s dev.name] }

/-- The record emitted by a successful `spy_connect_callback`. -/
def connected (dev : input_dev) : Record :=
  { level := Level.info, fmt := "spy: connect_callback: dev=%s, phys=%s\n",
    args := [Arg.s dev.name, Arg.s dev.phys] }

/-- The record emitted by `spy_disconnect_callback`. -/
def disconnected (dev : input_dev) : Record :=
  { level := Level.info, fmt := "spy: disconnect_callback: dev=%s, phys=%s\n",
    args := [Arg.s dev.name, Arg.s dev.phys] }

/-- The state a `spy_disconnect_callback` on a live handle `p` holding `h`
leaves. -/
def after_disconnect (s : State) (p : Nat) (h : input_handle) : State :=
  { s with
    allocated := s.allocated.filter (fun q => q ≠ p)
    registered := s.registered.filter (fun q => q ≠ p)
    opened := s.opened.filter (fun q => q ≠ p)
    mem := s.mem.filter (fun e => e.1 ≠ p)
    calls := s.calls ++ [Call.input_close_device p,
      Call.input_unregister_handle p, Call.kfree p]
    log := s.log ++ [disconnected h.dev] }

/-- The bookkeeping invariant between notifications, against the devices the
specification counts as attached: the three handle sets coincide, every
allocated address holds exactly one handle, and the devices of those handles
are the attached devices, each once. -/
structure Inv (s : State) (att : List input_dev) : Prop where
  reg : s.registered = s.allocated
  opn : s.opened = s.allocated
  keys : s.mem.map Prod.fst = s.allocated
  nodup : s.allocated.Nodup
  devs : s.mem.map (fun e => e.2.dev) = att
  att_nodup : att.Nodup

/-- A second device used in the concrete scenarios. -/
def mouse0 : input_dev := { addr := 2, name := "mouse0", phys := "usb-0000:00:14.0-2/input0" }

/-- A concrete sequence: `kbd0` attaches, `mouse0` fails to open, `mouse0`
attaches on a second try, `kbd0` detaches. -/
def sample_trace : List Notification :=
  [Notification.attach kbd0 ⟨8, 0, 0⟩,
   Notification.attach mouse0 ⟨16, 0, -19⟩,
   Notification.attach mouse0 ⟨16, 0, 0⟩,
   Notification.detach kbd0]

/-- The call that undoes a forward lifecycle call on the same handle. -/
def Call.undo : Call → Option Call
  | Call.kmalloc p => some (Call.kfree p)
  | Call.input_register_handle p _ => some (Call.input_unregister_handle p)
  | Call.input_open_device p _ => some (Call.input_close_device p)
  | _ => none

/-- The event records of a log: those emitted by `spy_event_callback`. -/
def event_records (log : List Record) : List Record :=
  log.filter (fun r => decide (r.fmt = event_fmt))

/-- The record `spy_event_callback` emits for event `e` on a handle of device
`d`. -/
def event_record (d : input_dev) (e : Nat × Nat × Int) : Record :=
  { level := Level.info, fmt := event_fmt,
    args := [Arg.u e.1, Arg.u e.2.1, Arg.d e.2.2, Arg.s d.name, Arg.s d.phys] }

/-- Startup in which everything succeeds up to `device_create`, which fails. -/
def device_create_fails : InitOutcome :=
  { alloc_chrdev_region := 0, dev := 511 <<< 20, cdev_add := 0, class_create := true,
    device_create := false, input_register_handler := 0 }

/-- Startup in which everything succeeds. -/
def startup_ok : InitOutcome :=
  { alloc_chrdev_region := 0, dev := 511 <<< 20, cdev_add := 0, class_create := true,
    device_create := true, input_register_handler := 0 }

/-! ## Control plane -/

theorem spy_ioctl_toggle (s : State) (file arg : Nat) :
    spy_ioctl s file SPY_TOGGLE_LOGGING arg =
      (0, { s with
        log_enabled := lnot s.log_enabled
        log := s.log ++ [{ level := Level.info, fmt := "spy: toggle_logging: enabled=%d\n",
                           args := [Arg.d (lnot s.log_enabled)] }] }) := by
  simp [spy_ioctl, pr_info]

/-- After `n` toggles issued with arguments `arg i, arg (i+1), ...` every call
has returned `0` and the flag has flipped `n` times. -/
theorem toggles_from (file : Nat) (arg : Nat → Nat) (n : Nat) :
    ∀ (i : Nat) (s : State),
      (ioctl_calls file s
        ((List.range' i n).map (fun j => (SPY_TOGGLE_LOGGING, arg j)))).1
          = List.replicate n 0 ∧
      ((ioctl_calls file s
        ((List.range' i n).map (fun j => (SPY_TOGGLE_LOGGING, arg j)))).2.log_enabled ≠ 0
          ↔ (s.log_enabled ≠ 0 ↔ n % 2 = 0)) := by
  induction n with
  | zero => intro i s; simp [ioctl_calls]
  | succ n ih =>
    intro i s
    obtain ⟨h1, h2⟩ := ih (i + 1) (spy_ioctl s file SPY_TOGGLE_LOGGING (arg i)).2
    simp only [List.range'_succ, List.map_cons, ioctl_calls]
    refine ⟨?_, ?_⟩
    · rw [h1, List.replicate_succ, spy_ioctl_toggle]
    · rw [h2, spy_ioctl_toggle]
      by_cases hz : s.log_enabled = 0
      · simp only [lnot, hz, if_true, ne_eq, one_ne_zero, not_false_eq_true, true_iff,
          not_true_eq_false, false_iff]
        omega
      · simp only [lnot, hz, if_false, ne_eq, not_true_eq_false, not_false_eq_true,
          true_iff, false_iff]
        omega

/-- C3: starting from the load-time state (`log_enabled = 0`), `N` calls of
`spy_ioctl` with command `SPY_TOGGLE_LOGGING`, whatever their arguments, all
return `0`, and afterwards the logging flag is non-zero exactly when `N` is
odd. -/
theorem toggle_parity (N : Nat) (file : Nat) (arg : Nat → Nat) :
    (ioctl_calls file init
      ((List.range N).map (fun j => (SPY_TOGGLE_LOGGING, arg j)))).1
        = List.replicate N 0 ∧
    ((ioctl_calls file init
      ((List.range N).map (fun j => (SPY_TOGGLE_LOGGING, arg j)))).2.log_enabled ≠ 0
        ↔ N % 2 = 1) := by
  have h := toggles_from file arg N 0 init
  rw [← List.range_eq_range'] at h
  refine ⟨h.1, ?_⟩
  rw [h.2]
  simp [init]

/-- C6: a command code other than `SPY_TOGGLE_LOGGING` makes `spy_ioctl`
return `0` and change nothing but the log, to which exactly the one "unknown"
record is appended; and whenever a call changes the logging flag, its command
was `SPY_TOGGLE_LOGGING`. -/
theorem unknown_command_inert (s : State) (file cmd arg : Nat) :
    (cmd ≠ SPY_TOGGLE_LOGGING →
      spy_ioctl s file cmd arg =
        (0, { s with log := s.log ++
          [{ level := Level.info, fmt := "spy: ioctl: unknown\n", args := [] }] })) ∧
    ((spy_ioctl s file cmd arg).2.log_enabled ≠ s.log_enabled →
      cmd = SPY_TOGGLE_LOGGING) := by
  constructor
  · intro h
    simp [spy_ioctl, pr_info, h]
  · intro h
    by_contra hc
    apply h
    simp [spy_ioctl, pr_info, hc]

theorem unknown_command_inert_witness :
    spy_ioctl init 0 7 0 =
      (0, { init with log := init.log ++
        [{ level := Level.info, fmt := "spy: ioctl: unknown\n", args := [] }] }) :=
  (unknown_command_inert init 0 7 0).1 (by decide)

/-! ## Event path -/

/-- C4: for a live handle and any event, `spy_event_callback` returns; with the
flag zero it leaves the whole state, log included, as it was; with the flag
non-zero it changes only the log, appending exactly one informational record
whose arguments are the event's type, code and value and the name and
physical path of the handle's device. -/
theorem event_gating (s : State) (handle : Nat) (h : input_handle)
    (type code : Nat) (value : Int) (hlive : deref s handle = some h) :
    (s.log_enabled = 0 → spy_event_callback s handle type code value = some s) ∧
    (s.log_enabled ≠ 0 →
      spy_event_callback s handle type code value =
        some { s with log := s.log ++
          [{ level := Level.info, fmt := event_fmt,
             args := [Arg.u type, Arg.u code, Arg.d value,
                      Arg.s h.dev.name, Arg.s h.dev.phys] }] }) := by
  constructor
  · intro h0
    simp [spy_event_callback, h0]
  · intro h1
    simp [spy_event_callback, h1, hlive, pr_info]

theorem event_gating_witness :
    spy_event_callback
        { init with log_enabled := 1, mem := [(8, ⟨kbd0, spy_handler, "spy_handle", none⟩)] }
        8 1 30 1 =
      some { init with
        log_enabled := 1
        mem := [(8, ⟨kbd0, spy_handler, "spy_handle", none⟩)]
        log := [{ level := Level.info, fmt := event_fmt,
                  args := [Arg.u 1, Arg.u 30, Arg.d 1, Arg.s "kbd0",
                           Arg.s "usb-0000:00:14.0-1/input0"] }] } :=
  (event_gating
    { init with log_enabled := 1, mem := [(8, ⟨kbd0, spy_handler, "spy_handle", none⟩)] }
    8 ⟨kbd0, spy_handler, "spy_handle", none⟩ 1 30 1 rfl).2 (by decide)

/-! ## Attach and detach: what one call does -/

theorem filter_ne_of_not_mem {p : Nat} {l : List Nat} (h : p ∉ l) :
    l.filter (fun q => decide (q ≠ p)) = l := by
  rw [List.filter_eq_self]
  intro a ha
  have : a ≠ p := fun e => h (e ▸ ha)
  simpa using this

theorem connect_alloc_fail (s : State) (handler : input_handler) (dev : input_dev)
    (id : input_device_id) (r o : Int) :
    spy_connect_callback s handler dev id ⟨0, r, o⟩ =
      (-ENOMEM, { s with calls := s.calls ++ [Call.kmalloc 0] }) := by
  simp [spy_connect_callback, kmalloc]

theorem connect_register_fail (s : State) (handler : input_handler) (dev : input_dev)
    (id : input_device_id) (o : Outcome) (hp : o.kmalloc ≠ 0)
    (hr : o.input_register_handle ≠ 0) :
    spy_connect_callback s handler dev id o =
      (o.input_register_handle, { s with
        allocated := s.allocated.filter (fun q => q ≠ o.kmalloc)
        mem := s.mem.filter (fun e => e.1 ≠ o.kmalloc)
        calls := s.calls ++ [Call.kmalloc o.kmalloc,
          Call.input_register_handle o.kmalloc o.input_register_handle,
          Call.kfree o.kmalloc]
        log := s.log ++ [connect_failed dev] }) := by
  simp [spy_connect_callback, kmalloc, store, input_register_handle, kfree, pr_err,
    connect_failed, hp, hr]

theorem connect_open_fail (s : State) (handler : input_handler) (dev : input_dev)
    (id : input_device_id) (o : Outcome) (hp : o.kmalloc ≠ 0)
    (hr : o.input_register_handle = 0) (ho : o.input_open_device ≠ 0) :
    spy_connect_callback s handler dev id o =
      (o.input_open_device, { s with
        allocated := s.allocated.filter (fun q => q ≠ o.kmalloc)
        registered := s.registered.filter (fun q => q ≠ o.kmalloc)
        mem := s.mem.filter (fun e => e.1 ≠ o.kmalloc)
        calls := s.calls ++ [Call.kmalloc o.kmalloc,
          Call.input_register_handle o.kmalloc 0,
          Call.input_open_device o.kmalloc o.input_open_device,
          Call.input_unregister_handle o.kmalloc,
          Call.kfree o.kmalloc]
        log := s.log ++ [connect_failed dev] }) := by
  simp [spy_connect_callback, kmalloc, store, input_register_handle, input_open_device,
    input_unregister_handle, kfree, pr_err, connect_failed, hp, hr, ho]

theorem connect_success (s : State) (handler : input_handler) (dev : input_dev)
    (id : input_device_id) (o : Outcome) (hp : o.kmalloc ≠ 0)
    (hr : o.input_register_handle = 0) (ho : o.input_open_device = 0) :
    spy_connect_callback s handler dev id o =
      (0, { s with
        allocated := o.kmalloc :: s.allocated
        registered := o.kmalloc :: s.registered
        opened := o.kmalloc :: s.opened
        mem := (o.kmalloc, new_handle handler dev) :: s.mem
        calls := s.calls ++ [Call.kmalloc o.kmalloc,
          Call.input_register_handle o.kmalloc 0,
          Call.input_open_device o.kmalloc 0]
        log := s.log ++ [connected dev] }) := by
  simp [spy_connect_callback, kmalloc, store, input_register_handle, input_open_device,
    pr_info, connected, new_handle, hp, hr, ho]

theorem disconnect_live (s : State) (p : Nat) (h : input_handle)
    (hlive : deref s p = some h) :
    spy_disconnect_callback s p = some (after_disconnect s p h) := by
  simp [spy_disconnect_callback, hlive, input_close_device, input_unregister_handle,
    kfree, pr_info, disconnected, after_disconnect]

/-- C8: when `kmalloc` returns `NULL`, `spy_connect_callback` returns `-ENOMEM`
and the state it leaves differs from the pre-state only by the record of that
one `kmalloc` call: no registration call and no open call is made, the sets of
allocated, registered and opened handles are those of the pre-state. -/
theorem alloc_failure_aborts (s : State) (handler : input_handler) (dev : input_dev)
    (id : input_device_id) (r o : Int) :
    (spy_connect_callback s handler dev id ⟨0, r, o⟩).1 = -ENOMEM ∧
    (spy_connect_callback s handler dev id ⟨0, r, o⟩).2.calls
      = s.calls ++ [Call.kmalloc 0] ∧
    (spy_connect_callback s handler dev id ⟨0, r, o⟩).2.allocated = s.allocated ∧
    (spy_connect_callback s handler dev id ⟨0, r, o⟩).2.registered = s.registered ∧
    (spy_connect_callback s handler dev id ⟨0, r, o⟩).2.opened = s.opened ∧
    (spy_connect_callback s handler dev id ⟨0, r, o⟩).2.mem = s.mem := by
  simp [connect_alloc_fail]

/-- C2: in a pre-state where only allocated handles are registered, when
`kmalloc` returns a non-null address not in use and then either registration
fails, or registration succeeds and open fails, `spy_connect_callback` returns
the non-zero status of the failing step and leaves the sets of allocated,
registered and opened handles exactly as in the pre-state; the calls it made
are allocate, register, free in the first case and allocate, register, open,
unregister, free in the second. -/
theorem rollback_complete (s : State) (handler : input_handler) (dev : input_dev)
    (id : input_device_id) (o : Outcome)
    (hp : o.kmalloc ≠ 0) (hfresh : o.kmalloc ∉ s.allocated)
    (hwf : ∀ q ∈ s.registered, q ∈ s.allocated)
    (hfail : o.input_register_handle ≠ 0 ∨
      (o.input_register_handle = 0 ∧ o.input_open_device ≠ 0)) :
    (spy_connect_callback s handler dev id o).2.allocated = s.allocated ∧
    (spy_connect_callback s handler dev id o).2.registered = s.registered ∧
    (spy_connect_callback s handler dev id o).2.opened = s.opened ∧
    (spy_connect_callback s handler dev id o).1 ≠ 0 ∧
    (spy_connect_callback s handler dev id o).1 =
      (if o.input_register_handle ≠ 0 then o.input_register_handle
       else o.input_open_device) ∧
    (spy_connect_callback s handler dev id o).2.calls = s.calls ++
      (if o.input_register_handle ≠ 0 then
        [Call.kmalloc o.kmalloc,
         Call.input_register_handle o.kmalloc o.input_register_handle,
         Call.kfree o.kmalloc]
       else
        [Call.kmalloc o.kmalloc,
         Call.input_register_handle o.kmalloc 0,
         Call.input_open_device o.kmalloc o.input_open_device,
         Call.input_unregister_handle o.kmalloc,
         Call.kfree o.kmalloc]) := by
  have hreg : o.kmalloc ∉ s.registered := fun h => hfresh (hwf _ h)
  rcases hfail with hr | ⟨hr, ho⟩
  · rw [connect_register_fail s handler dev id o hp hr]
    simp only [filter_ne_of_not_mem hfresh, hr, ne_eq, not_false_eq_true, if_true]
    simp
  · rw [connect_open_fail s handler dev id o hp hr ho]
    simp only [filter_ne_of_not_mem hfresh, filter_ne_of_not_mem hreg, hr, ne_eq,
      not_true_eq_false, if_false]
    simp [ho]

theorem rollback_complete_witness :
    (spy_connect_callback init spy_handler kbd0 ⟨1⟩ ⟨8, 0, -5⟩).2.allocated = [] ∧
    (spy_connect_callback init spy_handler kbd0 ⟨1⟩ ⟨8, 0, -5⟩).2.registered = [] ∧
    (spy_connect_callback init spy_handler kbd0 ⟨1⟩ ⟨8, 0, -5⟩).2.opened = [] ∧
    (spy_connect_callback init spy_handler kbd0 ⟨1⟩ ⟨8, 0, -5⟩).1 = -5 := by
  have h := rollback_complete init spy_handler kbd0 ⟨1⟩ ⟨8, 0, -5⟩ (by decide)
    (by decide) (by decide) (by decide)
  exact ⟨h.1, h.2.1, h.2.2.1, h.2.2.2.2.1⟩

/-! ## Sequences of notifications -/

theorem inv_init : Inv init [] := by
  constructor <;> simp [init]

theorem lookup_of_mem_nodup :
    ∀ (m : List (Nat × input_handle)), (m.map Prod.fst).Nodup →
      ∀ e ∈ m, m.lookup e.1 = some e.2 := by
  intro m
  induction m with
  | nil => intro _ e he; simp at he
  | cons x m ih =>
    intro hn e he
    obtain ⟨k, b⟩ := x
    simp only [List.map_cons, List.nodup_cons] at hn
    rw [List.lookup_cons]
    rcases List.mem_cons.mp he with rfl | hm
    · simp
    · have hne : e.1 ≠ k := by
        intro h
        apply hn.1
        rw [← h]
        exact List.mem_map_of_mem Prod.fst hm
      have : (e.1 == k) = false := by simpa using hne
      rw [this]
      exact ih hn.2 e hm

theorem filter_dev_singleton :
    ∀ (m : List (Nat × input_handle)), (m.map (fun e => e.2.dev)).Nodup →
      ∀ e ∈ m, m.filter (fun x => decide (x.2.dev = e.2.dev)) = [e] := by
  intro m
  induction m with
  | nil => intro _ e he; simp at he
  | cons x m ih =>
    intro hn e he
    simp only [List.map_cons, List.nodup_cons] at hn
    rcases List.mem_cons.mp he with rfl | hm
    · have : m.filter (fun x => decide (x.2.dev = e.2.dev)) = [] := by
        rw [List.filter_eq_nil_iff]
        intro a ha hc
        apply hn.1
        have hd : a.2.dev = e.2.dev := by simpa using hc
        rw [← hd]
        exact List.mem_map_of_mem (fun e => e.2.dev) ha
      simp [List.filter_cons, this]
    · have hne : x.2.dev ≠ e.2.dev := by
        intro h
        apply hn.1
        rw [h]
        exact List.mem_map_of_mem (fun e => e.2.dev) hm
      simp [List.filter_cons, hne, ih hn.2 e hm]

theorem handles_of_attached (s : State) (att : List input_dev) (hi : Inv s att)
    (e : Nat × input_handle) (he : e ∈ s.mem) :
    handles_of s e.2.dev = [e.1] := by
  have hk : (s.mem.map Prod.fst).Nodup := hi.keys ▸ hi.nodup
  have hd : (s.mem.map (fun e => e.2.dev)).Nodup := hi.devs ▸ hi.att_nodup
  unfold handles_of deref
  rw [hi.reg, ← hi.keys, List.filter_map]
  have hc : s.mem.filter ((fun p =>
        match s.mem.lookup p with
        | some h => decide (h.dev = e.2.dev)
        | none => false) ∘ Prod.fst)
      = s.mem.filter (fun x => decide (x.2.dev = e.2.dev)) := by
    apply List.filter_congr
    intro x hx
    simp [lookup_of_mem_nodup s.mem hk x hx]
  rw [hc, filter_dev_singleton s.mem hd e he]
  rfl

theorem mem_filter_key_eq (s : State) (att : List input_dev) (hi : Inv s att)
    (e : Nat × input_handle) (he : e ∈ s.mem) :
    s.mem.filter (fun x => decide (x.1 ≠ e.1))
      = s.mem.filter (fun x => decide (x.2.dev ≠ e.2.dev)) := by
  have hk : (s.mem.map Prod.fst).Nodup := hi.keys ▸ hi.nodup
  have hd : (s.mem.map (fun e => e.2.dev)).Nodup := hi.devs ▸ hi.att_nodup
  apply List.filter_congr
  intro x hx
  have h1 : x.1 = e.1 → x = e := fun h => List.inj_on_of_nodup_map hk hx he h
  have h2 : x.2.dev = e.2.dev → x = e := fun h => List.inj_on_of_nodup_map hd hx he h
  by_cases hxe : x = e
  · simp [hxe]
  · have a1 : x.1 ≠ e.1 := fun h => hxe (h1 h)
    have a2 : x.2.dev ≠ e.2.dev := fun h => hxe (h2 h)
    simp [a1, a2]

/-- A detach of an attached device finds its one handle, the callback returns,
and the invariant holds again with the device removed. -/
theorem detach_step (s : State) (att : List input_dev) (hi : Inv s att)
    (d : input_dev) (hd : d ∈ att) :
    ∃ s1, notify s (Notification.detach d) = some s1 ∧
      Inv s1 (att.filter (fun e => e ≠ d)) ∧ s1.log_enabled = s.log_enabled := by
  rw [← hi.devs] at hd
  obtain ⟨e, he, rfl⟩ := List.mem_map.mp hd
  have hlive : deref s e.1 = some e.2 :=
    lookup_of_mem_nodup s.mem (hi.keys ▸ hi.nodup) e he
  refine ⟨after_disconnect s e.1 e.2, ?_, ?_, ?_⟩
  · simp only [notify, handles_of_attached s att hi e he, List.foldlM_cons,
      List.foldlM_nil]
    rw [disconnect_live s e.1 e.2 hlive]
    rfl
  · constructor
    · simp only [after_disconnect]; rw [hi.reg]
    · simp only [after_disconnect]; rw [hi.opn]
    · simp only [after_disconnect]
      rw [← hi.keys, List.filter_map]
      rfl
    · exact hi.nodup.filter _
    · simp only [after_disconnect]
      rw [mem_filter_key_eq s att hi e he, ← hi.devs, List.filter_map]
      rfl
    · exact hi.att_nodup.filter _
  · rfl

/-- An allowed attach returns and re-establishes the invariant, with the device
added exactly when allocation, registration and open all succeeded. -/
theorem attach_step (s : State) (att : List input_dev) (hi : Inv s att)
    (d : input_dev) (o : Outcome)
    (hfresh : o.kmalloc = 0 ∨ o.kmalloc ∉ s.allocated) (hd : d ∉ att) :
    ∃ s1, notify s (Notification.attach d o) = some s1 ∧
      Inv s1 (track att (Notification.attach d o)) ∧ s1.log_enabled = s.log_enabled := by
  refine ⟨_, rfl, ?_, ?_⟩
  · by_cases hp : o.kmalloc = 0
    · have ho : o = ⟨0, o.input_register_handle, o.input_open_device⟩ := by
        cases o; simp_all
      rw [ho, connect_alloc_fail]
      have : Outcome.succeeded ⟨0, o.input_register_handle, o.input_open_device⟩ = false := by
        simp [Outcome.succeeded]
      simp only [track, this]
      exact ⟨hi.reg, hi.opn, hi.keys, hi.nodup, hi.devs, hi.att_nodup⟩
    · have hf : o.kmalloc ∉ s.allocated := hfresh.resolve_left hp
      have hfa := filter_ne_of_not_mem hf
      have hfm : s.mem.filter (fun e => decide (e.1 ≠ o.kmalloc)) = s.mem := by
        rw [List.filter_eq_self]
        intro a ha
        have : a.1 ≠ o.kmalloc := by
          intro h
          apply hf
          rw [← hi.keys, ← h]
          exact List.mem_map_of_mem Prod.fst ha
        simpa using this
      by_cases hr : o.input_register_handle = 0
      · by_cases hop : o.input_open_device = 0
        · rw [connect_success s spy_handler d _ o hp hr hop]
          have : o.succeeded = true := by simp [Outcome.succeeded, hp, hr, hop]
          simp only [track, this, if_true]
          constructor
          · simp [hi.reg]
          · simp [hi.opn]
          · simp [hi.keys]
          · simp [hf, hi.nodup]
          · simp [hi.devs, new_handle]
          · simp [hd, hi.att_nodup]
        · rw [connect_open_fail s spy_handler d _ o hp hr hop]
          have : o.succeeded = false := by simp [Outcome.succeeded, hop]
          simp only [track, this]
          constructor
          · simp only []; rw [hi.reg]
          · simp only []; rw [hfa]; exact hi.opn
          · simp only []; rw [hfa, hfm]; exact hi.keys
          · simp only []; rw [hfa]; exact hi.nodup
          · simp only []; rw [hfm]; exact hi.devs
          · exact hi.att_nodup
      · rw [connect_register_fail s spy_handler d _ o hp hr]
        have : o.succeeded = false := by simp [Outcome.succeeded, hr]
        simp only [track, this]
        constructor
        · simp only []; rw [hfa]; exact hi.reg
        · simp only []; rw [hfa]; exact hi.opn
        · simp only []; rw [hfa, hfm]; exact hi.keys
        · simp only []; rw [hfa]; exact hi.nodup
        · simp only []; rw [hfm]; exact hi.devs
        · exact hi.att_nodup
  · by_cases hp : o.kmalloc = 0
    · have ho : o = ⟨0, o.input_register_handle, o.input_open_device⟩ := by
        cases o; simp_all
      rw [ho, connect_alloc_fail]
    · by_cases hr : o.input_register_handle = 0
      · by_cases hop : o.input_open_device = 0
        · rw [connect_success s spy_handler d _ o hp hr hop]
        · rw [connect_open_fail s spy_handler d _ o hp hr hop]
      · rw [connect_register_fail s spy_handler d _ o hp hr]

/-- Every sequence that respects the platform ordering runs to completion and
keeps the invariant, against the devices the specification counts. -/
theorem run_inv :
    ∀ (tr : List Notification) (s : State) (att : List input_dev),
      Inv s att → respects s att tr = true →
      ∃ s1, run s tr = some s1 ∧ Inv s1 (tr.foldl track att) ∧
        s1.log_enabled = s.log_enabled := by
  intro tr
  induction tr with
  | nil => intro s att hi _; exact ⟨s, rfl, hi, rfl⟩
  | cons n tr ih =>
    intro s att hi hr
    simp only [respects, Bool.and_eq_true] at hr
    obtain ⟨ha, hrest⟩ := hr
    have hstep : ∃ s1, notify s n = some s1 ∧ Inv s1 (track att n) ∧
        s1.log_enabled = s.log_enabled := by
      cases n with
      | attach d o =>
        simp only [allowed, Bool.and_eq_true, Bool.or_eq_true, decide_eq_true_eq] at ha
        exact attach_step s att hi d o ha.1 ha.2
      | detach d =>
        simp only [allowed, decide_eq_true_eq] at ha
        exact detach_step s att hi d ha
    obtain ⟨s1, hn, hi1, hl1⟩ := hstep
    rw [hn] at hrest
    obtain ⟨s2, hrun, hi2, hl2⟩ := ih s1 (track att n) hi1 hrest
    refine ⟨s2, ?_, hi2, hl2.trans hl1⟩
    simp only [run, hn]
    exact hrun

theorem devices_of_keys (m : List (Nat × input_handle)) (hn : (m.map Prod.fst).Nodup)
    (s : State) (hs : s.mem = m) :
    devices_of s (m.map Prod.fst) = m.map (fun e => e.2.dev) := by
  unfold devices_of deref
  rw [hs, List.filterMap_map]
  rw [← List.filterMap_eq_map]
  apply List.filterMap_congr
  intro x hx
  simp [lookup_of_mem_nodup m hn x hx]


/-- C1: every finite sequence of attach and detach notifications that respects
the platform ordering runs to completion, and in the state it leaves the
allocated, registered and opened handles are the same handles, no address
occurs twice, there are exactly as many handles as devices currently attached,
and the devices those handles are bound to are exactly the devices whose attach
succeeded and that have not been detached since. -/
theorem registry_matches_attached (tr : List Notification)
    (h : respects init [] tr = true) :
    ∃ s, run init tr = some s ∧
      s.registered = s.allocated ∧ s.opened = s.allocated ∧
      s.allocated.Nodup ∧
      s.allocated.length = (attached_after tr).length ∧
      devices_of s s.allocated = attached_after tr := by
  obtain ⟨s, hrun, hi, _⟩ := run_inv tr init [] inv_init h
  refine ⟨s, hrun, hi.reg, hi.opn, hi.nodup, ?_, ?_⟩
  · unfold attached_after
    rw [← hi.devs, ← hi.keys]
    simp
  · unfold attached_after
    rw [← hi.devs, ← hi.keys]
    exact devices_of_keys s.mem (hi.keys ▸ hi.nodup) s rfl

theorem registry_matches_attached_witness :
    respects init [] sample_trace = true ∧
    attached_after sample_trace = [mouse0] ∧
    ∃ s, run init sample_trace = some s ∧
      s.registered = s.allocated ∧ s.opened = s.allocated ∧
      s.allocated.Nodup ∧
      s.allocated.length = (attached_after sample_trace).length ∧
      devices_of s s.allocated = attached_after sample_trace :=
  ⟨by decide, by decide, registry_matches_attached sample_trace (by decide)⟩


/-! ## Lifecycle order -/

/-- C10: a successful `spy_connect_callback` returns `0` having called, in this
order and nothing else, `kmalloc`, `input_register_handle` and
`input_open_device` on the one address `kmalloc` returned, and that address
then holds a handle whose device is the attached device, whose handler is the
handler passed in and whose private slot is empty.  `spy_disconnect_callback`
on a live handle returns having called, in this order and nothing else,
`input_close_device`, `input_unregister_handle` and `kfree` on it, which is
the attach order reversed with every call replaced by its inverse.  And after
every sequence of notifications that respects the platform ordering, a handle
is registered if and only if it is opened if and only if it is allocated. -/
theorem lifecycle_order (s : State) (handler : input_handler) (dev : input_dev)
    (id : input_device_id) (o : Outcome)
    (hp : o.kmalloc ≠ 0) (hr : o.input_register_handle = 0)
    (ho : o.input_open_device = 0)
    (s2 : State) (p : Nat) (h : input_handle) (hlive : deref s2 p = some h)
    (tr : List Notification) (htr : respects init [] tr = true) :
    ((spy_connect_callback s handler dev id o).1 = 0 ∧
      (spy_connect_callback s handler dev id o).2.calls = s.calls ++
        [Call.kmalloc o.kmalloc, Call.input_register_handle o.kmalloc 0,
         Call.input_open_device o.kmalloc 0] ∧
      deref (spy_connect_callback s handler dev id o).2 o.kmalloc =
        some { dev := dev, handler := handler, name := "spy_handle", priv := none }) ∧
    (∃ s3, spy_disconnect_callback s2 p = some s3 ∧
      s3.calls = s2.calls ++
        [Call.input_close_device p, Call.input_unregister_handle p, Call.kfree p] ∧
      [Call.input_close_device p, Call.input_unregister_handle p, Call.kfree p] =
        ([Call.kmalloc p, Call.input_register_handle p 0,
          Call.input_open_device p 0].reverse).filterMap Call.undo) ∧
    (∃ s4, run init tr = some s4 ∧
      ∀ q, (q ∈ s4.registered ↔ q ∈ s4.opened) ∧ (q ∈ s4.opened ↔ q ∈ s4.allocated)) := by
  refine ⟨?_, ?_, ?_⟩
  · rw [connect_success s handler dev id o hp hr ho]
    simp [deref, new_handle]
  · refine ⟨after_disconnect s2 p h, disconnect_live s2 p h hlive, rfl, ?_⟩
    simp [Call.undo]
  · obtain ⟨s4, hrun, hi, _⟩ := run_inv tr init [] inv_init htr
    refine ⟨s4, hrun, ?_⟩
    intro q
    rw [hi.reg, hi.opn]
    exact ⟨Iff.rfl, Iff.rfl⟩

theorem lifecycle_order_witness :
    (spy_connect_callback init spy_handler kbd0 ⟨1⟩ ⟨8, 0, 0⟩).2.calls =
      [Call.kmalloc 8, Call.input_register_handle 8 0, Call.input_open_device 8 0] ∧
    (∃ s3, spy_disconnect_callback
        (spy_connect_callback init spy_handler kbd0 ⟨1⟩ ⟨8, 0, 0⟩).2 8 = some s3 ∧
      s3.calls =
        [Call.kmalloc 8, Call.input_register_handle 8 0, Call.input_open_device 8 0,
         Call.input_close_device 8, Call.input_unregister_handle 8, Call.kfree 8]) ∧
    (∃ s4, run init sample_trace = some s4 ∧
      ∀ q, (q ∈ s4.registered ↔ q ∈ s4.opened) ∧ (q ∈ s4.opened ↔ q ∈ s4.allocated)) := by
  have h := lifecycle_order init spy_handler kbd0 ⟨1⟩ ⟨8, 0, 0⟩ (by decide) rfl rfl
    (spy_connect_callback init spy_handler kbd0 ⟨1⟩ ⟨8, 0, 0⟩).2 8
    (new_handle spy_handler kbd0) (by decide) sample_trace (by decide)
  obtain ⟨ha, ⟨s3, hb1, hb2, _⟩, hc⟩ := h
  refine ⟨ha.2.1, ⟨s3, hb1, ?_⟩, hc⟩
  rw [hb2, ha.2.1]
  rfl

/-! ## Attach-time logging -/

/-- C9, as stated, fails when allocation fails: `spy_connect_callback` then
returns `-ENOMEM` with the log exactly as it was, so no error record has been
emitted. -/
theorem alloc_failure_not_logged :
    (spy_connect_callback init spy_handler kbd0 ⟨1⟩ ⟨0, 0, 0⟩).1 = -ENOMEM ∧
    (spy_connect_callback init spy_handler kbd0 ⟨1⟩ ⟨0, 0, 0⟩).2.log = [] ∧
    ¬ ∃ r, r ∈ (spy_connect_callback init spy_handler kbd0 ⟨1⟩ ⟨0, 0, 0⟩).2.log ∧
      r.level = Level.err := by
  rw [connect_alloc_fail]
  simp [init]

/-- C9, amended: when registration fails, or registration succeeds and open
fails, `spy_connect_callback` appends exactly one record to the log, an error
record tagged `spy:` whose argument is the device name, and returns the
non-zero status; when allocation fails it returns `-ENOMEM` and appends
nothing; on full success it returns `0` and appends exactly one record, an
informational record tagged `spy:` whose arguments are the device name and
physical path. -/
theorem attach_logging (s : State) (handler : input_handler) (dev : input_dev)
    (id : input_device_id) (o : Outcome) :
    (o.kmalloc = 0 →
      (spy_connect_callback s handler dev id o).1 = -ENOMEM ∧
      (spy_connect_callback s handler dev id o).2.log = s.log) ∧
    (o.kmalloc ≠ 0 → o.input_register_handle ≠ 0 →
      (spy_connect_callback s handler dev id o).1 = o.input_register_handle ∧
      (spy_connect_callback s handler dev id o).2.log = s.log ++
        [{ level := Level.err,
           fmt := "spy: failed to handle connect callback for device %s\n",
           args := [Arg.s dev.name] }]) ∧
    (o.kmalloc ≠ 0 → o.input_register_handle = 0 → o.input_open_device ≠ 0 →
      (spy_connect_callback s handler dev id o).1 = o.input_open_device ∧
      (spy_connect_callback s handler dev id o).2.log = s.log ++
        [{ level := Level.err,
           fmt := "spy: failed to handle connect callback for device %s\n",
           args := [Arg.s dev.name] }]) ∧
    (o.kmalloc ≠ 0 → o.input_register_handle = 0 → o.input_open_device = 0 →
      (spy_connect_callback s handler dev id o).1 = 0 ∧
      (spy_connect_callback s handler dev id o).2.log = s.log ++
        [{ level := Level.info, fmt := "spy: connect_callback: dev=%s, phys=%s\n",
           args := [Arg.s dev.name, Arg.s dev.phys] }]) ∧
    spy_tagged { level := Level.err,
                 fmt := "spy: failed to handle connect callback for device %s\n",
                 args := [Arg.s dev.name] } = true ∧
    spy_tagged { level := Level.info, fmt := "spy: connect_callback: dev=%s, phys=%s\n",
                 args := [Arg.s dev.name, Arg.s dev.phys] } = true := by
  refine ⟨?_, ?_, ?_, ?_, rfl, rfl⟩
  · intro hp
    have ho : o = ⟨0, o.input_register_handle, o.input_open_device⟩ := by
      cases o; simp_all
    rw [ho, connect_alloc_fail]
    exact ⟨rfl, rfl⟩
  · intro hp hr
    rw [connect_register_fail s handler dev id o hp hr]
    exact ⟨rfl, rfl⟩
  · intro hp hr ho
    rw [connect_open_fail s handler dev id o hp hr ho]
    exact ⟨rfl, rfl⟩
  · intro hp hr ho
    rw [connect_success s handler dev id o hp hr ho]
    exact ⟨rfl, rfl⟩

theorem attach_logging_witness :
    (spy_connect_callback init spy_handler kbd0 ⟨1⟩ ⟨8, -16, 0⟩).1 = -16 ∧
    (spy_connect_callback init spy_handler kbd0 ⟨1⟩ ⟨8, -16, 0⟩).2.log =
      [{ level := Level.err,
         fmt := "spy: failed to handle connect callback for device %s\n",
         args := [Arg.s "kbd0"] }] :=
  (attach_logging init spy_handler kbd0 ⟨1⟩ ⟨8, -16, 0⟩).2.1 (by decide) (by decide)


/-! ## End to end -/

theorem deliver_disabled (p : Nat) (evs : List (Nat × Nat × Int)) (s : State)
    (h0 : s.log_enabled = 0) : deliver p s evs = some s := by
  induction evs with
  | nil => rfl
  | cons e evs ih =>
    obtain ⟨t, c, v⟩ := e
    simp only [deliver, spy_event_callback, h0, ne_eq, not_true_eq_false, if_false]
    exact ih

theorem deliver_enabled (p : Nat) (h : input_handle) (evs : List (Nat × Nat × Int)) :
    ∀ (s : State), s.log_enabled ≠ 0 → deref s p = some h →
      deliver p s evs = some { s with log := s.log ++ evs.map (event_record h.dev) } := by
  induction evs with
  | nil => intro s _ _; simp [deliver]
  | cons e evs ih =>
    intro s h1 hl
    obtain ⟨t, c, v⟩ := e
    simp only [deliver, spy_event_callback, h1, ne_eq, not_false_eq_true, if_true, hl]
    rw [ih (pr_info s event_fmt
      [Arg.u t, Arg.u c, Arg.d v, Arg.s h.dev.name, Arg.s h.dev.phys]) h1 hl]
    simp [pr_info, event_record]

theorem event_records_map (d : input_dev) (evs : List (Nat × Nat × Int)) :
    event_records (evs.map (event_record d)) = evs.map (event_record d) := by
  unfold event_records
  rw [List.filter_eq_self]
  intro r hr
  obtain ⟨e, _, rfl⟩ := List.mem_map.mp hr
  simp [event_record]

/-- Control commands, whatever they are, all return `0`, emit no event record
and leave the handle bookkeeping alone. -/
theorem ioctl_calls_frame (file : Nat) (cmds : List (Nat × Nat)) :
    ∀ (s : State),
      (ioctl_calls file s cmds).1 = List.replicate cmds.length 0 ∧
      event_records (ioctl_calls file s cmds).2.log = event_records s.log ∧
      (ioctl_calls file s cmds).2.allocated = s.allocated ∧
      (ioctl_calls file s cmds).2.registered = s.registered ∧
      (ioctl_calls file s cmds).2.opened = s.opened := by
  induction cmds with
  | nil => intro s; simp [ioctl_calls]
  | cons c cmds ih =>
    intro s
    obtain ⟨cmd, arg⟩ := c
    obtain ⟨h1, h2, h3, h4, h5⟩ := ih (spy_ioctl s file cmd arg).2
    simp only [ioctl_calls, List.length_cons, List.replicate_succ]
    rw [h1, h2, h3, h4, h5]
    have ht : ("spy: toggle_logging: enabled=%d\n" = event_fmt) = False := by
      simp only [eq_iff_iff, iff_false]; decide
    have hu : ("spy: ioctl: unknown\n" = event_fmt) = False := by
      simp only [eq_iff_iff, iff_false]; decide
    by_cases hc : cmd = SPY_TOGGLE_LOGGING
    · simp [spy_ioctl, pr_info, hc, event_records, List.filter_append, ht]
    · simp [spy_ioctl, pr_info, hc, event_records, List.filter_append, hu]

/-- C7: from the load-time state, a successful attach of device `d` returns
`0`; any run of events then delivered through its handle leaves no event
record; one toggle returns `0`; every further run of events delivered through
the handle leaves exactly one event record per event, in order, each carrying
the event and the name and path of `d`, and no other event record; the detach
of the handle returns and leaves the handle neither allocated nor registered
nor opened; and any run of toggles after that returns `0` every time and adds
no event record. -/
theorem end_to_end (d : input_dev) (p : Nat) (hp : p ≠ 0) (id : input_device_id)
    (evs1 evs2 : List (Nat × Nat × Int)) (file arg : Nat) (args : List Nat) :
    ∃ s1 s2 s3 s4 s5 s6,
      spy_connect_callback init spy_handler d id ⟨p, 0, 0⟩ = (0, s1) ∧
      deliver p s1 evs1 = some s2 ∧
      event_records s2.log = [] ∧
      spy_ioctl s2 file SPY_TOGGLE_LOGGING arg = (0, s3) ∧
      deliver p s3 evs2 = some s4 ∧
      event_records s4.log = evs2.map (event_record d) ∧
      spy_disconnect_callback s4 p = some s5 ∧
      p ∉ s5.allocated ∧ p ∉ s5.registered ∧ p ∉ s5.opened ∧
      ioctl_calls file s5 (args.map (fun a => (SPY_TOGGLE_LOGGING, a)))
        = (List.replicate args.length 0, s6) ∧
      event_records s6.log = evs2.map (event_record d) := by
  have hcf : ("spy: connect_callback: dev=%s, phys=%s\n" = event_fmt) = False := by
    simp only [eq_iff_iff, iff_false]; decide
  have htf : ("spy: toggle_logging: enabled=%d\n" = event_fmt) = False := by
    simp only [eq_iff_iff, iff_false]; decide
  have hdf : ("spy: disconnect_callback: dev=%s, phys=%s\n" = event_fmt) = False := by
    simp only [eq_iff_iff, iff_false]; decide
  have hmap := event_records_map d evs2
  unfold event_records at hmap
  obtain ⟨s1, hs1⟩ : ∃ s1 : State, s1 = { init with
      allocated := [p], registered := [p], opened := [p]
      mem := [(p, new_handle spy_handler d)]
      calls := [Call.kmalloc p, Call.input_register_handle p 0, Call.input_open_device p 0]
      log := [connected d] } := ⟨_, rfl⟩
  have h1 : spy_connect_callback init spy_handler d id ⟨p, 0, 0⟩ = (0, s1) := by
    rw [connect_success init spy_handler d id ⟨p, 0, 0⟩ hp rfl rfl, hs1]
    rfl
  have h2 : deliver p s1 evs1 = some s1 :=
    deliver_disabled p evs1 s1 (by rw [hs1]; rfl)
  have hl1 : deref s1 p = some (new_handle spy_handler d) := by
    rw [hs1]; simp [deref]
  obtain ⟨s3, hs3⟩ : ∃ s3 : State, s3 = { s1 with
      log_enabled := lnot s1.log_enabled
      log := s1.log ++ [{ level := Level.info, fmt := "spy: toggle_logging: enabled=%d\n",
                          args := [Arg.d (lnot s1.log_enabled)] }] } := ⟨_, rfl⟩
  have h3 : spy_ioctl s1 file SPY_TOGGLE_LOGGING arg = (0, s3) := by
    rw [spy_ioctl_toggle, hs3]
  have hl3 : deref s3 p = some (new_handle spy_handler d) := by
    rw [hs3]; exact hl1
  have hf3 : s3.log_enabled ≠ 0 := by
    rw [hs3, hs1]; simp [lnot, init]
  obtain ⟨s4, hs4⟩ : ∃ s4 : State, s4 =
      { s3 with log := s3.log ++ evs2.map (event_record d) } := ⟨_, rfl⟩
  have h4 : deliver p s3 evs2 = some s4 := by
    rw [deliver_enabled p (new_handle spy_handler d) evs2 s3 hf3 hl3, hs4]
    rfl
  have hl4 : deref s4 p = some (new_handle spy_handler d) := by
    rw [hs4]; exact hl3
  have he4 : event_records s4.log = evs2.map (event_record d) := by
    rw [hs4, hs3, hs1]
    simp [event_records, connected, hcf, htf, List.filter_append, hmap]
  have h5 := disconnect_live s4 p (new_handle spy_handler d) hl4
  have hfr := ioctl_calls_frame file (args.map (fun a => (SPY_TOGGLE_LOGGING, a)))
    (after_disconnect s4 p (new_handle spy_handler d))
  refine ⟨s1, s1, s3, s4, after_disconnect s4 p (new_handle spy_handler d),
    (ioctl_calls file (after_disconnect s4 p (new_handle spy_handler d))
      (args.map (fun a => (SPY_TOGGLE_LOGGING, a)))).2,
    h1, h2, ?_, h3, h4, he4, h5, ?_, ?_, ?_, ?_, ?_⟩
  · rw [hs1]
    simp [event_records, connected, hcf]
  · simp [after_disconnect]
  · simp [after_disconnect]
  · simp [after_disconnect]
  · rw [Prod.ext_iff]
    refine ⟨?_, rfl⟩
    simpa using hfr.1
  · rw [hfr.2.1]
    have : event_records (after_disconnect s4 p (new_handle spy_handler d)).log
        = event_records s4.log := by
      simp [after_disconnect, event_records, disconnected, hdf, List.filter_append]
    rw [this, he4]

theorem end_to_end_witness :
    ∃ s1 s2 s3 s4 s5 s6,
      spy_connect_callback init spy_handler kbd0 ⟨1⟩ ⟨8, 0, 0⟩ = (0, s1) ∧
      deliver 8 s1 [(1, 30, 1), (1, 30, 0), (1, 31, 1)] = some s2 ∧
      event_records s2.log = [] ∧
      spy_ioctl s2 0 SPY_TOGGLE_LOGGING 0 = (0, s3) ∧
      deliver 8 s3 [(1, 31, 0), (1, 32, 1)] = some s4 ∧
      event_records s4.log = [(1, 31, 0), (1, 32, 1)].map (event_record kbd0) ∧
      spy_disconnect_callback s4 8 = some s5 ∧
      8 ∉ s5.allocated ∧ 8 ∉ s5.registered ∧ 8 ∉ s5.opened ∧
      ioctl_calls 0 s5 ([0, 0].map (fun a => (SPY_TOGGLE_LOGGING, a)))
        = (List.replicate [0, 0].length 0, s6) ∧
      event_records s6.log = [(1, 31, 0), (1, 32, 1)].map (event_record kbd0) :=
  end_to_end kbd0 8 (by decide) ⟨1⟩ [(1, 30, 1), (1, 30, 0), (1, 31, 1)]
    [(1, 31, 0), (1, 32, 1)] 0 0 [0, 0]

/-! ## Startup -/

/-- Whatever step fails, a `spy_init` that reports failure from a state holding
nothing leaves the device-number region, the device node and the handler
registration released. -/
theorem init_failure_releases_node (o : InitOutcome)
    (hfail : (spy_init init o).1 ≠ 0) :
    (spy_init init o).2.chrdev_region = false ∧
    (spy_init init o).2.device_node = false ∧
    (spy_init init o).2.handler_registered = false := by
  obtain ⟨a, dv, c, cl, dc, r⟩ := o
  have key : ∀ x : Int, (x < 0 ∧ x ≠ 0) ∨ (¬ x < 0 ∧ x = 0) ∨ (¬ x < 0 ∧ x ≠ 0) := by
    intro x; omega
  rcases key a with ⟨h1, h2⟩ | ⟨h1, h2⟩ | ⟨h1, h2⟩ <;>
  rcases key c with ⟨h3, h4⟩ | ⟨h3, h4⟩ | ⟨h3, h4⟩ <;>
  cases cl <;> cases dc <;> by_cases hr : r = 0 <;>
  simp [spy_init, alloc_chrdev_region, cdev_add, class_create, device_create,
    input_register_handler, device_destroy, unregister_chrdev_region, pr_err, pr_info,
    init, h1, h2, h3, h4, hr] at hfail ⊢

/-- What `spy_exit` does release after a fully successful `spy_init`: the
handler, the device node, the class and the region, but not the `cdev`. -/
theorem exit_after_init :
    ∃ s, spy_exit (spy_init init startup_ok).2 = some s ∧
      s.handler_registered = false ∧ s.device_node = false ∧ s.dev_class = false ∧
      s.chrdev_region = false ∧ s.cdev_added = true :=
  ⟨_, rfl, rfl, rfl, rfl, rfl, rfl⟩

/-- C5 fails on the code: when `device_create` fails after the three earlier
steps succeeded, `spy_init` returns `-1` with the device class and the added
`cdev` still held; only the region and the (never created) node are released. -/
theorem init_failure_leaks_class :
    (spy_init init device_create_fails).1 = -1 ∧
    (spy_init init device_create_fails).2.dev_class = true ∧
    (spy_init init device_create_fails).2.cdev_added = true ∧
    (spy_init init device_create_fails).2.chrdev_region = false ∧
    (spy_init init device_create_fails).2.device_node = false ∧
    (spy_init init device_create_fails).2.handler_registered = false := by
  decide


end Spy
